import Mathlib

/-!
Shallow embedding of `@aptoma/hapi-mongoose-helper` (src/index.js) and proofs
about its error-translation helpers and connection lifecycle guard.

JavaScript values are embedded as focused Lean types per function: numeric
fields become `Option Int` (with `none` for `undefined`), JS truthiness is
made explicit, thrown values are returned in `Except`/sum-like results, and
the timer/event behaviour of `connect` becomes an explicit state machine.
-/

/-- Set of characters matched by `.` in a JavaScript regex without the `s`
flag: everything except the four line terminators. -/
def jsDot (c : Char) : Bool :=
  c != '\n' && c != '\r' && c.val != 0x2028 && c.val != 0x2029

/-- Set of characters matched by `\s` in a JavaScript regex. -/
def jsSpace (c : Char) : Bool :=
  c == ' ' || c == '\t' || c == '\n' || c.val == 0x0b || c.val == 0x0c ||
  c == '\r' || c.val == 0xa0 || c.val == 0x1680 ||
  (0x2000 ≤ c.val && c.val ≤ 0x200a) ||
  c.val == 0x2028 || c.val == 0x2029 || c.val == 0x202f || c.val == 0x205f ||
  c.val == 0x3000 || c.val == 0xfeff

/-- Whether the second list starts with the first (pattern) list. -/
def listStartsWith : List Char → List Char → Bool
  | [], _ => true
  | _ :: _, [] => false
  | p :: ps, c :: cs => p == c && listStartsWith ps cs

/-- Maximal run of `[^\s]` characters at the head of the input (the greedy
match of the third capture group of the duplicate-key regex). -/
def takeNonSpaceRun (s : List Char) : List Char :=
  s.takeWhile (fun c => !jsSpace c)

/-- Alternative `.*\$` of group 2 of `^E11000.*index:((.*\$|\s+)?([^\s]+))`,
followed by group 3: backtracking tries each literal `$` inside the maximal
`.`-matchable prefix, rightmost first, and succeeds when a non-empty
non-space run follows. Returns the group-3 capture. -/
def dollarAltMatch (s : List Char) : Option (List Char) :=
  let dotLen := (s.takeWhile jsDot).length
  ((List.range dotLen).reverse).findSome? fun i =>
    if s.get? i == some '$' then
      let run := takeNonSpaceRun (s.drop (i + 1))
      if run.isEmpty then none else some run
    else none

/-- Backtracking loop for the `\s+` alternative of group 2: with `k` spaces
consumed (greedy, so the largest `k` is tried first), group 3 must match a
non-empty non-space run. -/
def spaceAltGo (s : List Char) : Nat → Option (List Char)
  | 0 => none
  | k + 1 =>
    let run := takeNonSpaceRun (s.drop (k + 1))
    if run.isEmpty then spaceAltGo s k else some run

/-- Alternative `\s+` of group 2, followed by group 3. -/
def spaceAltMatch (s : List Char) : Option (List Char) :=
  spaceAltGo s (s.takeWhile jsSpace).length

/-- Match of `((.*\$|\s+)?([^\s]+))` against the input, returning the group-3
capture: the optional group 2 greedily tries `.*\$`, then `\s+`, then the
empty match, and group 3 is a non-empty non-space run. -/
def groupMatch (s : List Char) : Option (List Char) :=
  match dollarAltMatch s with
  | some g => some g
  | none =>
    match spaceAltMatch s with
    | some g => some g
    | none =>
      let run := takeNonSpaceRun s
      if run.isEmpty then none else some run

/-- Embedding of `/^E11000.*index:((.*\$|\s+)?([^\s]+))/.exec(msg)`, returning
the third capture group on success. The anchored literal `E11000` is followed
by a greedy `.*`, so the rightmost occurrence of `index:` reachable through
`.`-matchable characters is tried first, backtracking leftwards. -/
def execDupKey (msg : List Char) : Option (List Char) :=
  if listStartsWith "E11000".data msg then
    let t := msg.drop 6
    let dotLen := (t.takeWhile jsDot).length
    ((List.range (dotLen + 1)).reverse).findSome? fun j =>
      if listStartsWith "index:".data (t.drop j) then
        groupMatch (t.drop (j + 6))
      else none
  else none

/-- Field-level validation sub-error as stored in `err.errors[key]`: the
helper only reads its `path` and `message`. -/
structure FieldErr where
  path : String
  message : String
deriving DecidableEq

/-- Caught error value as inspected by the translators: a `message` string
and optional `name` / `code` / `errors` fields (`none` models `undefined`;
the `errors` mapping is kept in JS object-key iteration order). -/
structure CaughtError where
  message : String
  name : Option String
  code : Option Int
  errorsMap : List (String × FieldErr)
deriving DecidableEq

/-- Field/message pair exposed by the validation translator. -/
structure FieldMsg where
  field : String
  message : String
deriving DecidableEq

/-- Boom error objects the library constructs (status category, message and,
for `badRequest`, the optional `data` payload holding `_expose`). -/
inductive Boom where
  | conflict (message : String)
  | notFound
  | badRequest (message : String) (expose : Option (List FieldMsg))
  | internal (message : String)
deriving DecidableEq

/-- Value thrown by a translator: a constructed Boom error, the re-signalled
original error, or the JS `TypeError` raised by reading a property of
`undefined`. -/
inductive Signal where
  | boom (b : Boom)
  | rethrow (e : CaughtError)
  | typeError
deriving DecidableEq

/-- Embedding of the closure returned by `duplicateKeyError()`: run the
duplicate-key regex on `err.message`; on a match throw
`Boom.conflict('Duplicate key error: ' + dup[3])`, otherwise `throw err`. -/
def duplicateKeyError (e : CaughtError) : Signal :=
  match execDupKey e.message.data with
  | some g => .boom (.conflict ("Duplicate key error: " ++ String.mk g))
  | none => .rethrow e

/-- JS truthiness of the optional `err.name` string (the `!err.name` test:
`undefined` and the empty string are falsy). -/
def nameTruthy : Option String → Bool
  | none => false
  | some s => s != ""

/-- Embedding of `validationError(err)`: re-throw unless
`err.name === 'ValidationError'`; otherwise build the ordered
`{field, message}` list from the `errors` mapping and throw
`Boom.badRequest('Validation failed: ' + errors[0].message, {_expose: errors})`.
Reading `errors[0].message` on an empty mapping is the JS `TypeError` of
reading a property of `undefined`. -/
def validationError (e : CaughtError) : Signal :=
  if !nameTruthy e.name || e.name != some "ValidationError" then
    .rethrow e
  else
    let errors := e.errorsMap.map fun kv => FieldMsg.mk kv.2.path kv.2.message
    match errors with
    | [] => .typeError
    | first :: _ => .boom (.badRequest ("Validation failed: " ++ first.message) (some errors))

/-- Whether the pattern occurs as a contiguous sublist of the input (the
embedding of `message.match(/must not start with/)` being non-null: the
pattern has no metacharacters, so matching is substring search). -/
def containsPat (pat : List Char) : List Char → Bool
  | [] => listStartsWith pat []
  | c :: rest => listStartsWith pat (c :: rest) || containsPat pat rest

/-- Substring test on strings. -/
def strContainsSub (s pat : String) : Bool :=
  containsPat pat.data s.data

/-- Embedding of `mongoError(err)`: bad request with the original message on
a naming-constraint violation, conflict on driver code `11000`, otherwise an
internal error with the default message. -/
def mongoError (e : CaughtError) : Signal :=
  if strContainsSub e.message "must not start with" then
    .boom (.badRequest e.message none)
  else if e.code == some (11000 : Int) then
    .boom (.conflict "Duplicate key")
  else
    .boom (.internal "Error saving to database")

/-- NotFoundException object: the constructor stores the message and sets
`name` to the literal `'NotFoundException'`. -/
structure NotFoundException where
  message : String
  name : String
deriving DecidableEq

/-- Embedding of `new NotFoundException(message)`. -/
def mkNotFoundException (m : String) : NotFoundException :=
  ⟨m, "NotFoundException"⟩

/-- Constructor classes relevant to the prototype chain set up by
`NotFoundException.prototype = Object.create(Error.prototype)`. -/
inductive JsClass where
  | objectCls
  | errorCls
  | notFoundCls
deriving DecidableEq

/-- Prototype parent of each class (`NotFoundException` under `Error` under
`Object`). -/
def protoParent : JsClass → Option JsClass
  | .notFoundCls => some .errorCls
  | .errorCls => some .objectCls
  | .objectCls => none

/-- Prototype chain of a class, including the class itself. -/
def protoChainAux : Nat → Option JsClass → List JsClass
  | 0, _ => []
  | _, none => []
  | n + 1, some c => c :: protoChainAux n (protoParent c)

/-- Prototype chain with enough fuel for the three-level hierarchy. -/
def protoChain (c : JsClass) : List JsClass :=
  protoChainAux 4 (some c)

/-- Embedding of `v instanceof C`: the class of `v` reaches `C` through the
prototype chain. -/
def isInstanceOf (c target : JsClass) : Bool :=
  decide (target ∈ protoChain c)

/-- Result object passed to `notFoundExceptionIfNoMatch`: either a falsy
value, or an object with optional numeric fields `n`, `result.n` and
`matchedCount` (`result` itself may be absent, or present without `n`). -/
inductive MongoResult where
  | falsy
  | obj (n : Option Int) (result : Option (Option Int)) (matchedCount : Option Int)
deriving DecidableEq

/-- Value held by the local variable `n` of `notFoundExceptionIfNoMatch`
after its three sequential guarded assignments: `n = res.n` when defined,
then overwritten by `res.result?.n` when defined, then overwritten by
`res.matchedCount` when defined (`none` when all three are undefined). -/
def winningCount (nf : Option Int) (rf : Option (Option Int)) (mf : Option Int) : Option Int :=
  let n1 : Option Int := nf
  let n2 : Option Int := match rf with | some (some v) => some v | _ => n1
  match mf with
  | some v => some v
  | none => n2

/-- Embedding of `notFoundExceptionIfNoMatch(res)`: throw on a falsy result;
otherwise compute `n` by the three guarded assignments (`winningCount`) and
throw when `n < 1` (the comparison is false when `n` stayed `undefined`). -/
def notFoundExceptionIfNoMatch (res : MongoResult) : Except NotFoundException MongoResult :=
  match res with
  | .falsy => .error (mkNotFoundException "Empty database result")
  | .obj nf rf mf =>
    match winningCount nf rf mf with
    | some v =>
      if v < 1 then .error (mkNotFoundException "No document matched for update")
      else .ok (.obj nf rf mf)
    | none => .ok (.obj nf rf mf)

/-- Data value passed to `notFoundExceptionIfEmpty`: a falsy value, an array
(tracked by its length), or any other truthy value (tagged so distinct
inputs stay distinct). -/
inductive DataVal where
  | falsy
  | array (len : Nat)
  | truthy (tag : Nat)
deriving DecidableEq

/-- Whether the value is falsy (`!data`). -/
def DataVal.isFalsyVal : DataVal → Bool
  | .falsy => true
  | _ => false

/-- Whether the value is an array of length zero
(`data instanceof Array && !data.length`). -/
def DataVal.isEmptyArrayVal : DataVal → Bool
  | .array 0 => true
  | _ => false

/-- Embedding of `notFoundExceptionIfEmpty(data)`: throw on a falsy value or
an empty array, otherwise return the input. -/
def notFoundExceptionIfEmpty (d : DataVal) : Except NotFoundException DataVal :=
  if d.isFalsyVal then .error (mkNotFoundException "Empty data")
  else if d.isEmptyArrayVal then .error (mkNotFoundException "Empty data array")
  else .ok d

/-- Result value handed to the closure returned by `notFoundReply`: falsy, a
`NotFoundException` instance, or any other truthy value. -/
inductive ReplyVal where
  | falsy
  | nfe (e : NotFoundException)
  | other (tag : Nat)
deriving DecidableEq

/-- Embedding of the closure returned by `notFoundReply(h, code)`: throw
`Boom.notFound()` when the result is falsy or a `NotFoundException`
instance; otherwise tag the response with the optional status code (the
`h.response(result).code(code)` effect, recorded in the returned pair) and
return the result. -/
def notFoundReply (code : Option Nat) (result : ReplyVal) : Except Boom (ReplyVal × Option Nat) :=
  match result with
  | .falsy => .error .notFound
  | .nfe _ => .error .notFound
  | .other tag => .ok (.other tag, code)

/-- JS truthiness of the optional numeric `options.dieConnectTimeout`
(`undefined` and `0` are falsy). -/
def cfgTruthy : Option Nat → Bool
  | none => false
  | some t => t != 0

/-- Driver lifecycle events `connect` subscribes to. -/
inductive ConnEvent where
  | connectedEv
  | closeEv
  | errorEv (msg : String)
  | disconnectingEv
  | connectingEv
  | openEv
  | reconnectedEv
deriving DecidableEq

/-- State of the connection lifecycle guard set up by `connect`: the
configured `options.dieConnectTimeout`, the armed-and-not-yet-cleared
timers as (id, timeout) pairs, the `dieTimeoutId` variable (id of the most
recently armed timer), a fresh-id counter, and the log records emitted. -/
structure GuardState where
  config : Option Nat
  pendingTimers : List (Nat × Nat)
  dieTimeoutId : Option Nat
  nextId : Nat
  logs : List (List String × String)
deriving DecidableEq

/-- Embedding of `dieTimeoutId = dieIfNotConnected(timeout)`: `setTimeout`
creates a fresh pending timer and its id is stored in `dieTimeoutId`. -/
def armTimer (t : Nat) (s : GuardState) : GuardState :=
  { s with
    pendingTimers := s.pendingTimers ++ [(s.nextId, t)]
    dieTimeoutId := some s.nextId
    nextId := s.nextId + 1 }

/-- Embedding of `clearTimeout(dieTimeoutId)`: removes the timer with that
id, a no-op when the variable is still `undefined` or the timer already
fired or was cleared. -/
def clearTimer (idOpt : Option Nat) (s : GuardState) : GuardState :=
  match idOpt with
  | none => s
  | some i => { s with pendingTimers := s.pendingTimers.filter fun p => p.1 != i }

/-- Appends one log record. -/
def logRecord (tags : List String) (m : String) (s : GuardState) : GuardState :=
  { s with logs := s.logs ++ [(tags, m)] }

/-- Embedding of the event handlers registered by `connect`:
`connected` clears the current `dieTimeoutId` then logs; `close` logs and,
only when `options.dieConnectTimeout` is truthy, arms a fresh timer (without
clearing any pending one); `error` and the remaining events only log. -/
def handleEvent (s : GuardState) (e : ConnEvent) : GuardState :=
  match e with
  | .connectedEv =>
    logRecord ["mongoose", "info", "connected"] "Connected to database."
      (clearTimer s.dieTimeoutId s)
  | .closeEv =>
    let s1 := logRecord ["mongoose", "info"] "Disconnected from database." s
    match s1.config with
    | some t => if t != 0 then armTimer t s1 else s1
    | none => s1
  | .errorEv m => logRecord ["mongoose", "error"] m s
  | .disconnectingEv =>
    logRecord ["mongoose", "info", "disconnecting"] "Mongoose connection event: disconnecting" s
  | .connectingEv =>
    logRecord ["mongoose", "info", "connecting"] "Mongoose connection event: connecting" s
  | .openEv =>
    logRecord ["mongoose", "info", "open"] "Mongoose connection event: open" s
  | .reconnectedEv =>
    logRecord ["mongoose", "info", "reconnected"] "Mongoose connection event: reconnected" s

/-- Guard state right after `connect` passes its precondition checks: no
timer pending yet, and one armed immediately when `options.dieConnectTimeout`
is truthy. -/
def connectInit (cfg : Option Nat) : GuardState :=
  let s0 : GuardState := ⟨cfg, [], none, 0, []⟩
  match cfg with
  | some t => if t != 0 then armTimer t s0 else s0
  | none => s0

/-- Runs a sequence of driver lifecycle events through the handlers. -/
def runEvents (s : GuardState) (evs : List ConnEvent) : GuardState :=
  evs.foldl handleEvent s

/-- Options bag given to `connect`; `uri = none` models a value that is not
a string (so `typeof options.uri === 'string'` fails). -/
structure ConnectOptions where
  uri : Option String
  dieConnectTimeout : Option Nat
deriving DecidableEq

/-- Outcome of calling `connect(mongoose, server, options)`: the precondition
assertion failure, the early `Promise.resolve()` return taken when
`readyState` is 1 or 2 (carrying the only log it emits and registering no
listeners, arming no timer, issuing no driver connect call), or a started
attempt with its registered listener names and initial guard state. -/
inductive ConnectOutcome where
  | assertionError (msg : String)
  | alreadyActive (logs : List (List String × String))
  | attempt (listeners : List String) (s : GuardState)
deriving DecidableEq

/-- Embedding of `connect`: assert `options.uri` is a string, return resolved
immediately when `mongoose.connection.readyState` is 1 or 2, otherwise arm
the optional timer, register the seven event listeners, log and issue the
driver connect call. -/
def connect (readyState : Nat) (opts : ConnectOptions) : ConnectOutcome :=
  match opts.uri with
  | none => .assertionError "Database service requires option uri."
  | some _ =>
    if readyState == 1 || readyState == 2 then
      .alreadyActive [(["mongoose", "info"], "Already connecting/connected..")]
    else
      .attempt
        ["connected", "close", "error", "disconnecting", "connecting", "open", "reconnected"]
        (logRecord ["mongoose", "info"] "Connecting to database.."
          (connectInit opts.dieConnectTimeout))


/-- Helper: any error produced by `notFoundExceptionIfNoMatch` was built by
the `NotFoundException` constructor, so its `name` is the literal set there. -/
theorem noMatch_error_is_nfe (res : MongoResult) (ex : NotFoundException)
    (h : notFoundExceptionIfNoMatch res = Except.error ex) :
    ex.name = "NotFoundException" := by
  cases res with
  | falsy =>
    simp [notFoundExceptionIfNoMatch] at h
    rw [← h, mkNotFoundException]
  | obj nf rf mf =>
    rw [notFoundExceptionIfNoMatch] at h
    cases hw : winningCount nf rf mf with
    | none =>
      rw [hw] at h
      have h' : (Except.ok (MongoResult.obj nf rf mf) : Except NotFoundException MongoResult)
          = Except.error ex := h
      exact absurd h' (by simp)
    | some v =>
      rw [hw] at h
      have h' : (if v < 1 then
            (Except.error (mkNotFoundException "No document matched for update") :
              Except NotFoundException MongoResult)
          else Except.ok (MongoResult.obj nf rf mf)) = Except.error ex := h
      by_cases hv : v < 1
      · rw [if_pos hv] at h'
        have heq : mkNotFoundException "No document matched for update" = ex :=
          Except.error.inj h'
        rw [← heq, mkNotFoundException]
      · rw [if_neg hv] at h'
        exact absurd h' (by simp)

/-- Helper: any error produced by `notFoundExceptionIfEmpty` was built by the
`NotFoundException` constructor, so its `name` is the literal set there. -/
theorem ifEmpty_error_is_nfe (d : DataVal) (ex : NotFoundException)
    (h : notFoundExceptionIfEmpty d = Except.error ex) :
    ex.name = "NotFoundException" := by
  rw [notFoundExceptionIfEmpty] at h
  by_cases h1 : d.isFalsyVal = true
  · rw [if_pos h1] at h
    have : mkNotFoundException "Empty data" = ex := Except.error.inj h
    rw [← this, mkNotFoundException]
  · rw [if_neg h1] at h
    by_cases h2 : d.isEmptyArrayVal = true
    · rw [if_pos h2] at h
      have : mkNotFoundException "Empty data array" = ex := Except.error.inj h
      rw [← this, mkNotFoundException]
    · rw [if_neg h2] at h
      exact absurd h (by simp)

/-- Claim C4: the duplicate-key translator signals a conflict with message
`Duplicate key error: <third capture group>` exactly when the caught error's
message matches `^E11000.*index:((.*\$|\s+)?([^\s]+))`, re-signals the
identical error otherwise, and the capture extracts the index name from both
the legacy `index: db.coll.$idx` and the modern `index: idx` formats. -/
theorem duplicateKeyError_spec (e : CaughtError) :
    (∀ g, execDupKey e.message.data = some g →
      duplicateKeyError e = Signal.boom (Boom.conflict ("Duplicate key error: " ++ String.mk g))) ∧
    (execDupKey e.message.data = none → duplicateKeyError e = Signal.rethrow e) ∧
    execDupKey "E11000 duplicate key error index: db.editions.$name_1 dup key".data
      = some "name_1".data ∧
    execDupKey "E11000 duplicate key error collection: a.b index: name_1 dup key".data
      = some "name_1".data := by
  refine ⟨?_, ?_, by decide, by decide⟩
  · intro g h
    rw [duplicateKeyError, h]
  · intro h
    rw [duplicateKeyError, h]

/-- Witness for C4: a legacy-format duplicate-key message is translated to
the conflict error and an unrelated message is re-signalled unchanged. -/
theorem duplicateKeyError_spec_witness :
    duplicateKeyError ⟨"E11000 duplicate key error index: db.editions.$name_1 dup key", none, none, []⟩
      = Signal.boom (Boom.conflict "Duplicate key error: name_1") ∧
    duplicateKeyError ⟨"crap", none, none, []⟩ = Signal.rethrow ⟨"crap", none, none, []⟩ := by
  constructor
  · exact (duplicateKeyError_spec
      ⟨"E11000 duplicate key error index: db.editions.$name_1 dup key", none, none, []⟩).1
      "name_1".data (by decide)
  · exact (duplicateKeyError_spec ⟨"crap", none, none, []⟩).2.1 (by decide)

/-- Claim C7: the generic persistence-error translator signals bad-request
with the original message on a `must not start with` match, otherwise
conflict `Duplicate key` when `code` is the number 11000, otherwise internal
`Error saving to database`. -/
theorem mongoError_spec (e : CaughtError) :
    (strContainsSub e.message "must not start with" = true →
      mongoError e = Signal.boom (Boom.badRequest e.message none)) ∧
    (strContainsSub e.message "must not start with" = false → e.code = some 11000 →
      mongoError e = Signal.boom (Boom.conflict "Duplicate key")) ∧
    (strContainsSub e.message "must not start with" = false → e.code ≠ some 11000 →
      mongoError e = Signal.boom (Boom.internal "Error saving to database")) := by
  refine ⟨?_, ?_, ?_⟩
  · intro h1
    rw [mongoError, if_pos h1]
  · intro h1 h2
    rw [mongoError, if_neg (by simp [h1]), if_pos (by simp [h2])]
  · intro h1 h2
    rw [mongoError, if_neg (by simp [h1]), if_neg (by simp [h2])]

/-- Witness for C7: the three branches at concrete errors. -/
theorem mongoError_spec_witness :
    mongoError ⟨"Collection names must not start with a dot", none, none, []⟩
      = Signal.boom (Boom.badRequest "Collection names must not start with a dot" none) ∧
    mongoError ⟨"dup", none, some 11000, []⟩ = Signal.boom (Boom.conflict "Duplicate key") ∧
    mongoError ⟨"boom", none, none, []⟩
      = Signal.boom (Boom.internal "Error saving to database") :=
  ⟨(mongoError_spec ⟨"Collection names must not start with a dot", none, none, []⟩).1 (by decide),
   (mongoError_spec ⟨"dup", none, some 11000, []⟩).2.1 (by decide) rfl,
   (mongoError_spec ⟨"boom", none, none, []⟩).2.2 (by decide) (by decide)⟩

/-- Claim C8: the empty-data helper raises a `NotFoundException` exactly on a
falsy value or a zero-length array, and returns every other input unchanged. -/
theorem notFoundExceptionIfEmpty_spec (d : DataVal) :
    ((∃ ex, notFoundExceptionIfEmpty d = Except.error ex) ↔
      (d = DataVal.falsy ∨ d = DataVal.array 0)) ∧
    (d ≠ DataVal.falsy → d ≠ DataVal.array 0 → notFoundExceptionIfEmpty d = Except.ok d) := by
  cases d with
  | falsy =>
    exact ⟨⟨fun _ => Or.inl rfl, fun _ => ⟨mkNotFoundException "Empty data", rfl⟩⟩,
      fun h _ => absurd rfl h⟩
  | array n =>
    cases n with
    | zero =>
      exact ⟨⟨fun _ => Or.inr rfl, fun _ => ⟨mkNotFoundException "Empty data array", rfl⟩⟩,
        fun _ h => absurd rfl h⟩
    | succ k =>
      refine ⟨⟨fun hx => ?_, fun hd => ?_⟩, fun _ _ => rfl⟩
      · obtain ⟨ex, hex⟩ := hx
        exact absurd hex (by simp [notFoundExceptionIfEmpty, DataVal.isFalsyVal,
          DataVal.isEmptyArrayVal])
      · rcases hd with h | h <;> exact absurd h (by simp)
  | truthy t =>
    refine ⟨⟨fun hx => ?_, fun hd => ?_⟩, fun _ _ => rfl⟩
    · obtain ⟨ex, hex⟩ := hx
      exact absurd hex (by simp [notFoundExceptionIfEmpty, DataVal.isFalsyVal,
        DataVal.isEmptyArrayVal])
    · rcases hd with h | h <;> exact absurd h (by simp)

/-- Witness for C8: a truthy scalar and a non-empty array pass through
unchanged. -/
theorem notFoundExceptionIfEmpty_spec_witness :
    notFoundExceptionIfEmpty (DataVal.truthy 7) = Except.ok (DataVal.truthy 7) ∧
    notFoundExceptionIfEmpty (DataVal.array 2) = Except.ok (DataVal.array 2) :=
  ⟨(notFoundExceptionIfEmpty_spec (DataVal.truthy 7)).2 (by decide) (by decide),
   (notFoundExceptionIfEmpty_spec (DataVal.array 2)).2 (by decide) (by decide)⟩

/-- Claim C5: the validation translator re-signals the identical error
exactly when `name` is not `'ValidationError'`; with that name and a
non-empty `errors` mapping it signals a bad-request whose message appends
the first field's message (in mapping-iteration order) to
`Validation failed: ` and whose metadata is the full ordered
`{field, message}` list. -/
theorem validationError_spec (e : CaughtError) :
    (validationError e = Signal.rethrow e ↔ e.name ≠ some "ValidationError") ∧
    (∀ k fe rest, e.name = some "ValidationError" → e.errorsMap = (k, fe) :: rest →
      validationError e = Signal.boom (Boom.badRequest ("Validation failed: " ++ fe.message)
        (some (((k, fe) :: rest).map fun kv => FieldMsg.mk kv.2.path kv.2.message)))) := by
  obtain ⟨msg, nm, cd, errs⟩ := e
  constructor
  · by_cases hn : nm = some "ValidationError"
    · subst hn
      have hc : (!nameTruthy (some "ValidationError")
          || (some "ValidationError" != some "ValidationError")) = false := by decide
      constructor
      · intro h
        rw [validationError] at h
        rw [hc] at h
        simp only [Bool.false_eq_true, if_false] at h
        cases herrs : errs.map fun kv => FieldMsg.mk kv.2.path kv.2.message with
        | nil => rw [herrs] at h; exact absurd h (by simp)
        | cons a r => rw [herrs] at h; exact absurd h (by simp)
      · intro h
        exact absurd rfl h
    · constructor
      · intro _
        simpa using hn
      · intro _
        rw [validationError]
        have hc : (!nameTruthy nm || (nm != some "ValidationError")) = true := by
          cases nm with
          | none => decide
          | some s =>
            have : (s == "ValidationError") = false := by
              cases hb : s == "ValidationError" with
              | false => rfl
              | true => exact absurd (congrArg Option.some (eq_of_beq hb)) hn
            simp [bne, this]
        rw [hc]
        simp
  · intro k fe rest hn herrs
    subst hn
    subst herrs
    have hc : (!nameTruthy (some "ValidationError")
        || (some "ValidationError" != some "ValidationError")) = false := by decide
    rw [validationError, hc]
    simp only [Bool.false_eq_true, if_false, List.map_cons]

/-- Witness for C5: an error named otherwise is re-signalled; a validation
error with one field produces the bad-request with its exposed metadata. -/
theorem validationError_spec_witness :
    validationError ⟨"crap", some "Error", none, []⟩
      = Signal.rethrow ⟨"crap", some "Error", none, []⟩ ∧
    validationError ⟨"crap", some "ValidationError", none, [("items", ⟨"items", "bad title"⟩)]⟩
      = Signal.boom (Boom.badRequest ("Validation failed: " ++ "bad title")
          (some [FieldMsg.mk "items" "bad title"])) := by
  constructor
  · exact (validationError_spec ⟨"crap", some "Error", none, []⟩).1.mpr (by decide)
  · exact (validationError_spec
      ⟨"crap", some "ValidationError", none, [("items", ⟨"items", "bad title"⟩)]⟩).2
      "items" ⟨"items", "bad title"⟩ [] rfl rfl

/-- Claim C9: a `ValidationError` with an empty `errors` mapping does not
produce a bad-request: reading `errors[0].message` fails with a TypeError. -/
theorem validationError_empty_errors (e : CaughtError)
    (h1 : e.name = some "ValidationError") (h2 : e.errorsMap = []) :
    validationError e = Signal.typeError ∧
    ∀ m d, validationError e ≠ Signal.boom (Boom.badRequest m d) := by
  obtain ⟨msg, nm, cd, errs⟩ := e
  cases h1
  cases h2
  have hc : (!nameTruthy (some "ValidationError")
      || (some "ValidationError" != some "ValidationError")) = false := by decide
  constructor
  · rw [validationError, hc]
    simp
  · intro m d
    rw [validationError, hc]
    simp

/-- Witness for C9: a concrete empty-mapping validation error hits the
TypeError path. -/
theorem validationError_empty_errors_witness :
    validationError ⟨"crap", some "ValidationError", none, []⟩ = Signal.typeError :=
  (validationError_empty_errors ⟨"crap", some "ValidationError", none, []⟩ rfl rfl).1

/-- Claim C10: every exception the two helpers raise carries name
`NotFoundException` and its class is an `Error` instance through the
prototype chain, and `notFoundReply` throws not-found exactly on falsy
results and `NotFoundException` instances, so helper-raised exceptions are
recognized and translated rather than passed through. -/
theorem notFound_helpers_reply_spec (res : MongoResult) (d : DataVal) (code : Option Nat) :
    (∀ ex, notFoundExceptionIfNoMatch res = Except.error ex →
      ex.name = "NotFoundException" ∧ isInstanceOf JsClass.notFoundCls JsClass.errorCls = true ∧
      notFoundReply code (ReplyVal.nfe ex) = Except.error Boom.notFound) ∧
    (∀ ex, notFoundExceptionIfEmpty d = Except.error ex →
      ex.name = "NotFoundException" ∧ isInstanceOf JsClass.notFoundCls JsClass.errorCls = true ∧
      notFoundReply code (ReplyVal.nfe ex) = Except.error Boom.notFound) ∧
    (∀ r, notFoundReply code r = Except.error Boom.notFound ↔
      (r = ReplyVal.falsy ∨ ∃ ex, r = ReplyVal.nfe ex)) := by
  refine ⟨fun ex h => ⟨noMatch_error_is_nfe res ex h, by decide, rfl⟩,
    fun ex h => ⟨ifEmpty_error_is_nfe d ex h, by decide, rfl⟩, fun r => ?_⟩
  cases r with
  | falsy => exact ⟨fun _ => Or.inl rfl, fun _ => rfl⟩
  | nfe ex => exact ⟨fun _ => Or.inr ⟨ex, rfl⟩, fun _ => rfl⟩
  | other tag =>
    refine ⟨fun h => absurd h (by simp [notFoundReply]), fun h => ?_⟩
    rcases h with h | ⟨ex, h⟩ <;> exact absurd h (by simp)

/-- Witness for C10: the no-match helper's exception on a falsy result is
named `NotFoundException` and is translated to not-found by the reply
helper. -/
theorem notFound_helpers_reply_spec_witness :
    (mkNotFoundException "Empty database result").name = "NotFoundException" ∧
    notFoundReply none (ReplyVal.nfe (mkNotFoundException "Empty database result"))
      = Except.error Boom.notFound := by
  have h := (notFound_helpers_reply_spec MongoResult.falsy DataVal.falsy none).1
    (mkNotFoundException "Empty database result") rfl
  exact ⟨h.1, h.2.2⟩

/-- Claim C6: while the driver reports readyState 1 or 2, `connect` (with a
string `uri`, which its assertion checks first) only logs and returns the
resolved promise, registering no listeners, arming no timer and issuing no
driver connect call. -/
theorem connect_idempotent_when_active (readyState : Nat) (opts : ConnectOptions)
    (u : String) (hu : opts.uri = some u) (hr : readyState = 1 ∨ readyState = 2) :
    connect readyState opts
      = ConnectOutcome.alreadyActive [(["mongoose", "info"], "Already connecting/connected..")] := by
  obtain ⟨uri, cfg⟩ := opts
  simp only at hu
  subst hu
  rcases hr with h | h <;> subst h <;> rfl

/-- Witness for C6: a call at readyState 1 with a concrete uri resolves
immediately with only the log record. -/
theorem connect_idempotent_when_active_witness :
    connect 1 ⟨some "mongodb://localhost/foobar", none⟩
      = ConnectOutcome.alreadyActive [(["mongoose", "info"], "Already connecting/connected..")] :=
  connect_idempotent_when_active 1 ⟨some "mongodb://localhost/foobar", none⟩
    "mongodb://localhost/foobar" rfl (Or.inl rfl)

/-- Claim C1 is refuted: on a result with `n = 1` and `matchedCount = 0`,
where the claim's priority order makes `n` win and requires the result to be
returned unchanged, the helper raises the no-match exception, because the
code's sequential overwrites let `matchedCount` win. -/
theorem noMatch_priority_counterexample :
    notFoundExceptionIfNoMatch (MongoResult.obj (some 1) none (some 0))
      = Except.error (mkNotFoundException "No document matched for update") ∧
    ¬ (1 : Int) < 1 :=
  ⟨rfl, by decide⟩

/-- Claim C1 as amended: on a truthy result with both `n` and `matchedCount`
defined, `matchedCount` wins (the last guarded assignment, priority
`matchedCount`, then `result.n`, then `n`): the helper raises the no-match
exception iff `matchedCount < 1`, and otherwise returns the result
unchanged. -/
theorem noMatch_matchedCount_priority (nv mv : Int) (rf : Option (Option Int)) :
    (mv < 1 → notFoundExceptionIfNoMatch (MongoResult.obj (some nv) rf (some mv))
      = Except.error (mkNotFoundException "No document matched for update")) ∧
    (1 ≤ mv → notFoundExceptionIfNoMatch (MongoResult.obj (some nv) rf (some mv))
      = Except.ok (MongoResult.obj (some nv) rf (some mv))) := by
  have hw : winningCount (some nv) rf (some mv) = some mv := rfl
  constructor
  · intro h
    rw [notFoundExceptionIfNoMatch, hw]
    exact if_pos h
  · intro h
    rw [notFoundExceptionIfNoMatch, hw]
    exact if_neg (not_lt.mpr h)

/-- Witness for the amended C1: with `n = 3`, `matchedCount = 0` the helper
raises; with `n = 0`, `matchedCount = 2` it returns the result unchanged. -/
theorem noMatch_matchedCount_priority_witness :
    notFoundExceptionIfNoMatch (MongoResult.obj (some 3) none (some 0))
      = Except.error (mkNotFoundException "No document matched for update") ∧
    notFoundExceptionIfNoMatch (MongoResult.obj (some 0) none (some 2))
      = Except.ok (MongoResult.obj (some 0) none (some 2)) :=
  ⟨(noMatch_matchedCount_priority 3 0 none).1 (by decide),
   (noMatch_matchedCount_priority 0 2 none).2 (by decide)⟩

/-- Claim C2 is refuted: with `dieConnectTimeout = 5`, the timer armed at
connect start is still pending when a `close` event arms a second one, so
two fatal-timeout timers are pending simultaneously. -/
theorem timer_stacking_counterexample :
    (runEvents (connectInit (some 5)) [ConnEvent.closeEv]).pendingTimers
      = [(0, 5), (1, 5)] := rfl

/-- Claim C2 as amended: arming at connect start happens with no previously
pending timer (at most one is pending right after `connect`), but re-arming
on a `close` event does not cancel the previously pending timer: the close
handler appends a fresh timer and removes none, so fatal-timeout timers can
stack. -/
theorem close_rearm_without_cancel (s : GuardState) (t : Nat)
    (h1 : s.config = some t) (h2 : t ≠ 0) :
    (handleEvent s ConnEvent.closeEv).pendingTimers = s.pendingTimers ++ [(s.nextId, t)] ∧
    ∀ cfg : Option Nat, (connectInit cfg).pendingTimers.length ≤ 1 := by
  constructor
  · rw [handleEvent]
    simp only [logRecord, h1]
    rw [if_pos (by simpa [bne] using h2)]
    rfl
  · intro cfg
    cases cfg with
    | none => decide
    | some t' =>
      by_cases ht : (t' != 0) = true
      · rw [connectInit]
        rw [if_pos ht]
        rfl
      · rw [connectInit]
        rw [if_neg ht]
        exact Nat.zero_le 1

/-- Witness for the amended C2: a state with one pending timer gains a
second on `close`. -/
theorem close_rearm_without_cancel_witness :
    (handleEvent ⟨some 5, [(0, 5)], some 0, 1, []⟩ ConnEvent.closeEv).pendingTimers
      = [(0, 5)] ++ [(1, 5)] :=
  (close_rearm_without_cancel ⟨some 5, [(0, 5)], some 0, 1, []⟩ 5 rfl (by decide)).1

/-- Claim C3 is refuted: when no `dieConnectTimeout` was configured, a
`close` event after connect arms no liveness timer at all (no fallback
default exists), leaving the close unbounded by any liveness deadline. -/
theorem close_no_fallback_counterexample :
    (handleEvent (connectInit none) ConnEvent.closeEv).pendingTimers = [] ∧
    (handleEvent (connectInit none) ConnEvent.closeEv).nextId = 0 :=
  ⟨rfl, rfl⟩

/-- Claim C3 as amended: a `close` event re-arms the liveness timer with the
configured `dieConnectTimeout` when a truthy one was given; when none was
configured the handler arms nothing (pending timers and the timer counter
are unchanged). -/
theorem close_rearm_only_when_configured (s : GuardState) :
    (∀ t, s.config = some t → t ≠ 0 →
      (handleEvent s ConnEvent.closeEv).pendingTimers = s.pendingTimers ++ [(s.nextId, t)]) ∧
    (cfgTruthy s.config = false →
      (handleEvent s ConnEvent.closeEv).pendingTimers = s.pendingTimers ∧
      (handleEvent s ConnEvent.closeEv).nextId = s.nextId) := by
  constructor
  · intro t h1 h2
    rw [handleEvent]
    simp only [logRecord, h1]
    rw [if_pos (by simpa [bne] using h2)]
    rfl
  · intro hc
    obtain ⟨cfg, pts, dti, nid, lgs⟩ := s
    cases cfg with
    | none => exact ⟨rfl, rfl⟩
    | some t =>
      have ht : (t != 0) = false := by simpa [cfgTruthy] using hc
      constructor <;> simp [handleEvent, logRecord, ht]

/-- Witness for the amended C3: with `dieConnectTimeout = 5` a close re-arms
with timeout 5; with none configured the close handler changes no timer
state. -/
theorem close_rearm_only_when_configured_witness :
    (handleEvent (connectInit (some 5)) ConnEvent.closeEv).pendingTimers
      = [(0, 5)] ++ [(1, 5)] ∧
    (handleEvent (connectInit none) ConnEvent.closeEv).pendingTimers = [] :=
  ⟨(close_rearm_only_when_configured (connectInit (some 5))).1 5 rfl (by decide),
   ((close_rearm_only_when_configured (connectInit none)).2 (by decide)).1⟩
